import Mathlib

/-!
# Verification of the sage ORM core

Shallow embedding of the sage ORM (Go) and proofs about it: the
dialect-aware and dialect-unaware query builders, the CRUD executor,
relationship preloading, nested persistence and the migration manager.

Go `interface{}` values are modelled by `GoValue` (with `vnull` for the
nil interface), Go maps by association lists together with an explicit
iteration-order parameter (Go map iteration order is unspecified), and
database access by oracle functions passed as parameters.  Operations
additionally return the list of statements they issued, so that ordering
and frame properties can be stated.
-/

namespace Sage

/-- A Go `interface{}` value as it flows through the ORM: the nil
interface, an integer, or a string.  (Only the shapes the verified
operations inspect are represented.) -/
inductive GoValue where
  | vnull
  | vint (n : Int)
  | vstr (s : String)
deriving DecidableEq, Repr

/-- `isZeroValue` from nested.go: `reflect.DeepEqual(v, reflect.Zero(type))`.
The zero value of an interface is nil, of an integer 0, of a string "". -/
def goIsZero : GoValue → Bool
  | .vnull => true
  | .vint n => n = 0
  | .vstr s => s = ""

/-- A record (Go struct) as a list of (exported field name, value) pairs. -/
def Rec := List (String × GoValue)

instance : DecidableEq Rec := inferInstanceAs (DecidableEq (List (String × GoValue)))

/-- `reflect.Value.FieldByName` followed by validity check: linear scan of
the record's fields, `none` models an invalid (missing) field. -/
def lookupField : Rec → String → Option GoValue
  | [], _ => none
  | (a, b) :: t, n => if a = n then some b else lookupField t n

/-- `FieldByName(...).Interface()` where the field is assumed valid; a
missing field yields the nil interface. -/
def fieldByName (r : Rec) (n : String) : GoValue :=
  (lookupField r n).getD GoValue.vnull

/-- `fieldValue.Set(v)` guarded by `IsValid() && CanSet()`: writes the field
when it exists, otherwise leaves the record unchanged (as the Go code
silently skips the assignment). -/
def setField (r : Rec) (n : String) (v : GoValue) : Rec :=
  if List.any r (fun p => p.1 = n) then
    List.map (fun p => if p.1 = n then (n, v) else p) r
  else r

/-- Go map assignment `m[k] = v` on the association-list model of a map:
replaces the binding when the key is present, otherwise appends it. -/
def mapSet (m : List (String × GoValue)) (k : String) (v : GoValue) :
    List (String × GoValue) :=
  if List.any m (fun p => p.1 = k) then
    List.map (fun p => if p.1 = k then (k, v) else p) m
  else m ++ [(k, v)]

/-- `FieldInfo` from the metadata extractor (the attributes read by the
embedded operations; the remaining declarative attributes — nullable,
unique, indexed, size, precision, scale — are never read by the CRUD,
relationship or nested-persistence code verified here). -/
structure FieldInfo where
  name : String
  dbName : String
  isKey : Bool
  isAuto : Bool
deriving DecidableEq, Repr

/-- `ModelInfo` from the metadata extractor. -/
structure ModelInfo where
  tableName : String
  primaryKey : String
  fields : List FieldInfo
deriving DecidableEq, Repr

/-- The three SQL dialects. -/
inductive Dialect where
  | postgres
  | mysql
  | sqlite
deriving DecidableEq, Repr

/-- `Dialect.Name()`. -/
def Dialect.dname : Dialect → String
  | .postgres => "postgres"
  | .mysql => "mysql"
  | .sqlite => "sqlite"

/-- `strings.Replace(s, q, qq, -1)` for a one-character quote `q`: every
occurrence of the quote character is doubled. -/
def doubleChar (c : Char) (s : String) : String :=
  String.mk (s.data.foldr (fun ch acc => if ch = c then c :: c :: acc else ch :: acc) [])

/-- `Dialect.Quote(identifier)`: double quotes for postgres and sqlite,
backquotes for mysql, with embedded quote characters doubled. -/
def Dialect.quote : Dialect → String → String
  | .mysql, s => "`" ++ doubleChar '`' s ++ "`"
  | _, s => "\"" ++ doubleChar '\"' s ++ "\""

/-- `Dialect.Placeholder(position)`: `$N` for postgres, `?` otherwise. -/
def Dialect.placeholder : Dialect → Nat → String
  | .postgres, i => "$" ++ toString i
  | _, _ => "?"

/-- The dialect-unaware `QueryBuilder` of package sage.  The `values` Go
map is modelled as an association list in insertion order; `Build` takes
the map iteration order as an explicit parameter. -/
structure QueryBuilder where
  table : String
  columns : List String
  whereClause : List String
  whereArgs : List GoValue
  orderBy : List String
  limit : Int
  offset : Int
  joins : List String
  groupBy : List String
  havingClause : List String
  havingArgs : List GoValue
  operation : String
  values : List (String × GoValue)
deriving DecidableEq, Repr

/-- `NewQueryBuilder(table)`. -/
def newQueryBuilder (table : String) : QueryBuilder :=
  { table := table, columns := [], whereClause := [], whereArgs := [],
    orderBy := [], limit := 0, offset := 0, joins := [], groupBy := [],
    havingClause := [], havingArgs := [], operation := "", values := [] }

/-- `QueryBuilder.Build()`.  `valuesIter` is the iteration order in which Go
enumerates the `values` map (any permutation of the entries); SELECT and
DELETE do not consult it. -/
def QueryBuilder.build (qb : QueryBuilder)
    (valuesIter : List (String × GoValue)) : String × List GoValue :=
  if qb.operation = "SELECT" then
    let q1 := "SELECT " ++
      (if qb.columns.isEmpty then "*" else String.intercalate ", " qb.columns) ++
      " FROM " ++ qb.table
    let q2 := q1 ++ String.join (qb.joins.map (fun j => " " ++ j))
    let p3 : String × List GoValue :=
      if qb.whereClause.isEmpty then (q2, []) else
        (q2 ++ " WHERE " ++ String.intercalate " AND " qb.whereClause, qb.whereArgs)
    let q4 := if qb.groupBy.isEmpty then p3.1 else
      p3.1 ++ " GROUP BY " ++ String.intercalate ", " qb.groupBy
    let p5 : String × List GoValue :=
      if qb.havingClause.isEmpty then (q4, p3.2) else
        (q4 ++ " HAVING " ++ String.intercalate " AND " qb.havingClause,
         p3.2 ++ qb.havingArgs)
    let q6 := if qb.orderBy.isEmpty then p5.1 else
      p5.1 ++ " ORDER BY " ++ String.intercalate ", " qb.orderBy
    let q7 := if qb.limit > 0 then q6 ++ " LIMIT " ++ toString qb.limit else q6
    let q8 := if qb.offset > 0 then q7 ++ " OFFSET " ++ toString qb.offset else q7
    (q8, p5.2)
  else if qb.operation = "INSERT" then
    let cols := valuesIter.map (fun p => p.1)
    let phs := valuesIter.map (fun _ => "?")
    ("INSERT INTO " ++ qb.table ++ " (" ++ String.intercalate ", " cols ++
       ") VALUES (" ++ String.intercalate ", " phs ++ ")",
     valuesIter.map (fun p => p.2))
  else if qb.operation = "UPDATE" then
    let sets := valuesIter.map (fun p => p.1 ++ " = ?")
    let args := valuesIter.map (fun p => p.2)
    let base := "UPDATE " ++ qb.table ++ " SET " ++ String.intercalate ", " sets
    if qb.whereClause.isEmpty then (base, args) else
      (base ++ " WHERE " ++ String.intercalate " AND " qb.whereClause,
       args ++ qb.whereArgs)
  else if qb.operation = "DELETE" then
    let base := "DELETE FROM " ++ qb.table
    if qb.whereClause.isEmpty then (base, []) else
      (base ++ " WHERE " ++ String.intercalate " AND " qb.whereClause,
       qb.whereArgs)
  else ("", [])

/-- The dialect-aware `Builder` of the internal query package
(`where` is named `whereClauses` because `where` is reserved in Lean). -/
structure Builder where
  dialect : Dialect
  table : String
  columns : List String
  whereClauses : List String
  whereArgs : List GoValue
  orderBy : List String
  limit : Int
  offset : Int
  joins : List String
  groupBy : List String
  having : List String
  havingArgs : List GoValue
  operation : String
  values : List (String × GoValue)
  returning : List String
deriving DecidableEq, Repr

/-- `NewBuilder(dialect, table)`. -/
def newBuilder (d : Dialect) (table : String) : Builder :=
  { dialect := d, table := table, columns := [], whereClauses := [],
    whereArgs := [], orderBy := [], limit := 0, offset := 0, joins := [],
    groupBy := [], having := [], havingArgs := [], operation := "",
    values := [], returning := [] }

/-- `Builder.Set(column, value)`: assignment into the `values` Go map. -/
def Builder.set (b : Builder) (column : String) (v : GoValue) : Builder :=
  { b with values := mapSet b.values column v }

/-- `QueryBuilder.Set(column, value)`. -/
def QueryBuilder.set (qb : QueryBuilder) (column : String) (v : GoValue) :
    QueryBuilder :=
  { qb with values := mapSet qb.values column v }

/-- `Builder.Build()`.  As in `QueryBuilder.build`, `valuesIter` is the map
iteration order Go happens to use for `b.values`. -/
def Builder.build (b : Builder) (valuesIter : List (String × GoValue)) :
    String × List GoValue :=
  let quotedTable := b.dialect.quote b.table
  if b.operation = "SELECT" then
    let q1 := "SELECT " ++
      (if b.columns.isEmpty then "*" else String.intercalate ", " b.columns) ++
      " FROM " ++ quotedTable
    let q2 := q1 ++ String.join (b.joins.map (fun j => " " ++ j))
    let p3 : String × List GoValue :=
      if b.whereClauses.isEmpty then (q2, []) else
        (q2 ++ " WHERE " ++ String.intercalate " AND " b.whereClauses, b.whereArgs)
    let q4 := if b.groupBy.isEmpty then p3.1 else
      p3.1 ++ " GROUP BY " ++ String.intercalate ", " b.groupBy
    let p5 : String × List GoValue :=
      if b.having.isEmpty then (q4, p3.2) else
        (q4 ++ " HAVING " ++ String.intercalate " AND " b.having,
         p3.2 ++ b.havingArgs)
    let q6 := if b.orderBy.isEmpty then p5.1 else
      p5.1 ++ " ORDER BY " ++ String.intercalate ", " b.orderBy
    let q7 := if b.limit > 0 then q6 ++ " LIMIT " ++ toString b.limit else q6
    let q8 := if b.offset > 0 then q7 ++ " OFFSET " ++ toString b.offset else q7
    (q8, p5.2)
  else if b.operation = "INSERT" then
    let cols := valuesIter.map (fun p => b.dialect.quote p.1)
    let phs := (List.range valuesIter.length).map
      (fun i => b.dialect.placeholder (i + 1))
    let base := "INSERT INTO " ++ quotedTable ++ " (" ++
      String.intercalate ", " cols ++ ") VALUES (" ++
      String.intercalate ", " phs ++ ")"
    let withRet := if b.returning.isEmpty = false ∧ b.dialect.dname = "postgres"
      then base ++ " RETURNING " ++ String.intercalate ", " b.returning
      else base
    (withRet, valuesIter.map (fun p => p.2))
  else if b.operation = "UPDATE" then
    let sets := (List.range valuesIter.length).map (fun i =>
      match valuesIter[i]? with
      | some p => b.dialect.quote p.1 ++ " = " ++ b.dialect.placeholder (i + 1)
      | none => "")
    let base := "UPDATE " ++ quotedTable ++ " SET " ++
      String.intercalate ", " sets
    let withWhere := if b.whereClauses.isEmpty then base else
      base ++ " WHERE " ++ String.intercalate " AND " b.whereClauses
    let withRet := if b.returning.isEmpty = false ∧ b.dialect.dname = "postgres"
      then withWhere ++ " RETURNING " ++ String.intercalate ", " b.returning
      else withWhere
    (withRet, valuesIter.map (fun p => p.2) ++ b.whereArgs)
  else if b.operation = "DELETE" then
    let base := "DELETE FROM " ++ quotedTable
    let withWhere := if b.whereClauses.isEmpty then base else
      base ++ " WHERE " ++ String.intercalate " AND " b.whereClauses
    let withRet := if b.returning.isEmpty = false ∧ b.dialect.dname = "postgres"
      then withWhere ++ " RETURNING " ++ String.intercalate ", " b.returning
      else withWhere
    (withRet, b.whereArgs)
  else ("", [])

/-- `Builder.Insert()`. -/
def Builder.insert (b : Builder) : Builder := { b with operation := "INSERT" }

/-- `QueryBuilder.Insert()`. -/
def QueryBuilder.insert (qb : QueryBuilder) : QueryBuilder :=
  { qb with operation := "INSERT" }

/-- The concrete INSERT builder state used to exhibit the map-iteration
nondeterminism of `Build`: two `Set` column/value pairs on the postgres
dialect. -/
def c1Builder : Builder :=
  (((newBuilder Dialect.postgres "items").insert).set "a" (GoValue.vint 1)).set
    "b" (GoValue.vint 2)

/-- The same state on the dialect-unaware `QueryBuilder`. -/
def c1QueryBuilder : QueryBuilder :=
  (((newQueryBuilder "items").insert).set "a" (GoValue.vint 1)).set "b"
    (GoValue.vint 2)

/-- C1: the claim that two invocations of `Build()` on identical builder
state yield byte-identical SQL is false for INSERT states with two `Set`
pairs: both builders enumerate the `values` Go map, whose iteration order
is unspecified, and the two enumeration orders of the map with keys
`a`, `b` yield different SQL text (and differently ordered argument
lists), under the postgres dialect for `Builder` and likewise for the
dialect-unaware `QueryBuilder`. -/
theorem build_insert_depends_on_map_iteration_order :
    [("a", GoValue.vint 1), ("b", GoValue.vint 2)].Perm c1Builder.values ∧
    [("b", GoValue.vint 2), ("a", GoValue.vint 1)].Perm c1Builder.values ∧
    c1Builder.build [("a", GoValue.vint 1), ("b", GoValue.vint 2)] ≠
      c1Builder.build [("b", GoValue.vint 2), ("a", GoValue.vint 1)] ∧
    [("a", GoValue.vint 1), ("b", GoValue.vint 2)].Perm c1QueryBuilder.values ∧
    [("b", GoValue.vint 2), ("a", GoValue.vint 1)].Perm c1QueryBuilder.values ∧
    c1QueryBuilder.build [("a", GoValue.vint 1), ("b", GoValue.vint 2)] ≠
      c1QueryBuilder.build [("b", GoValue.vint 2), ("a", GoValue.vint 1)] := by
  refine ⟨by decide, by decide, by decide, by decide, by decide, by decide⟩

/-- The sentinel errors of package sage (`ErrNotFound`, `ErrNotAStruct`,
`ErrNoID`), plus propagated driver errors and formatted errors. -/
inductive SageError where
  | notFound
  | notAStruct
  | noID
  | dbError (e : String)
  | otherError (msg : String)
deriving DecidableEq, Repr

/-- A database operation issued by the ORM, in issue order: a statement
executed via `ExecContext`, a row query via `QueryContext` /
`QueryRowContext`, or a recursive `Create` / `Update` of a related record. -/
inductive Op where
  | opExec (q : String) (args : List GoValue)
  | opQuery (q : String) (args : List GoValue)
  | opCreate (r : Rec)
  | opUpdate (r : Rec)
deriving DecidableEq

namespace Connection

/-- `Connection.Create`: INSERT of every field except auto-increment
primary keys, then write-back of `LastInsertId` into the key field.
`exec` is the driver (`ExecContext` followed by `Result.LastInsertId`):
it returns a driver error, or the optional last-insert id (`none` when the
driver does not report one, in which case the record is left unchanged).
`valuesIter` is the iteration order of the builder's `values` map. -/
def create (info : ModelInfo) (r : Rec)
    (valuesIter : List (String × GoValue))
    (exec : String → List GoValue → Except String (Option Int)) :
    Except SageError Rec × List Op :=
  let qb := info.fields.foldl
    (fun acc f => if f.isKey && f.isAuto then acc
      else acc.set f.dbName (fieldByName r f.name))
    ((newQueryBuilder info.tableName).insert)
  let qa := qb.build valuesIter
  match exec qa.1 qa.2 with
  | .error e => (.error (.dbError e), [Op.opExec qa.1 qa.2])
  | .ok lastId =>
    match lastId with
    | none => (.ok r, [Op.opExec qa.1 qa.2])
    | some id =>
      match info.fields.find? (fun f => f.isKey && f.isAuto) with
      | some f => (.ok (setField r f.name (GoValue.vint id)), [Op.opExec qa.1 qa.2])
      | none => (.ok r, [Op.opExec qa.1 qa.2])

/-- `Connection.Find`: SELECT by primary key, scanning a single row.
`queryRow` models `QueryRowContext` followed by `Row.Scan`: a driver
error, or `none` for `sql.ErrNoRows` (mapped to `ErrNotFound`), or the
scanned column values. -/
def find (info : ModelInfo) (id : GoValue)
    (queryRow : String → List GoValue → Except String (Option (List GoValue))) :
    Except SageError (List GoValue) × List Op :=
  let qb :=
    { newQueryBuilder info.tableName with
      operation := "SELECT", whereClause := [info.primaryKey ++ " = ?"],
      whereArgs := [id] }
  let qa := qb.build []
  match queryRow qa.1 qa.2 with
  | .error e => (.error (.dbError e), [Op.opQuery qa.1 qa.2])
  | .ok none => (.error .notFound, [Op.opQuery qa.1 qa.2])
  | .ok (some row) => (.ok row, [Op.opQuery qa.1 qa.2])

/-- The `idValue` accumulated by `Connection.Update`: the loop assigns it
from every key field (without break), starting from the nil interface. -/
def updateIdValue (info : ModelInfo) (r : Rec) : GoValue :=
  info.fields.foldl
    (fun acc f => if f.isKey then fieldByName r f.name else acc)
    GoValue.vnull

/-- The `idValue` extracted by `Connection.Delete`: the loop breaks at the
first key field; nil interface when there is none. -/
def deleteIdValue (info : ModelInfo) (r : Rec) : GoValue :=
  match info.fields.find? (fun f => f.isKey) with
  | some f => fieldByName r f.name
  | none => GoValue.vnull

/-- `Connection.Update`: UPDATE of all non-key fields filtered by the
primary key.  A nil `idValue` yields `ErrNoID` before any statement is
issued; a successfully executed statement affecting zero rows yields
`ErrNotFound`.  `exec` returns the driver error or the affected-row
count. -/
def update (info : ModelInfo) (r : Rec)
    (valuesIter : List (String × GoValue))
    (exec : String → List GoValue → Except String Nat) :
    Except SageError Unit × List Op :=
  let idValue := updateIdValue info r
  let qb0 := info.fields.foldl
    (fun acc f => if f.isKey then acc else acc.set f.dbName (fieldByName r f.name))
    { newQueryBuilder info.tableName with operation := "UPDATE" }
  if idValue = GoValue.vnull then (.error .noID, [])
  else
    let qb :=
      { qb0 with
        whereClause := [info.primaryKey ++ " = ?"], whereArgs := [idValue] }
    let qa := qb.build valuesIter
    match exec qa.1 qa.2 with
    | .error e => (.error (.dbError e), [Op.opExec qa.1 qa.2])
    | .ok affected =>
      if affected = 0 then (.error .notFound, [Op.opExec qa.1 qa.2])
      else (.ok (), [Op.opExec qa.1 qa.2])

/-- `Connection.Delete`: DELETE filtered by the primary key, with the same
nil-key and zero-affected-rows behaviour as `Update`. -/
def delete (info : ModelInfo) (r : Rec)
    (exec : String → List GoValue → Except String Nat) :
    Except SageError Unit × List Op :=
  let idValue := deleteIdValue info r
  if idValue = GoValue.vnull then (.error .noID, [])
  else
    let qb :=
      { newQueryBuilder info.tableName with
        operation := "DELETE", whereClause := [info.primaryKey ++ " = ?"],
        whereArgs := [idValue] }
    let qa := qb.build []
    match exec qa.1 qa.2 with
    | .error e => (.error (.dbError e), [Op.opExec qa.1 qa.2])
    | .ok affected =>
      if affected = 0 then (.error .notFound, [Op.opExec qa.1 qa.2])
      else (.ok (), [Op.opExec qa.1 qa.2])

end Connection

/-- The users model of the worked example: table `users`, auto-increment
primary key column `id` (struct field `Id`), and a `username` column. -/
def usersInfo : ModelInfo :=
  { tableName := "users", primaryKey := "id",
    fields := [
      { name := "Id", dbName := "id", isKey := true, isAuto := true },
      { name := "Username", dbName := "username", isKey := false, isAuto := false } ] }

/-- A users record with the given username and an unset id. -/
def userRec (v : GoValue) : Rec := [("Id", GoValue.vnull), ("Username", v)]

/-- C2 counterexample: `Find(record, 1)` on the users model issues
`SELECT * FROM users WHERE id = ?` — the dialect-unaware `QueryBuilder` is
used by the executor, so the SQL is not the quoted, `$1`-placeholder text
the claim states, even when the connection was opened with the postgres
driver. -/
theorem find_sql_is_not_dialect_quoted :
    (Connection.find usersInfo (GoValue.vint 1)
        (fun _ _ => Except.ok none)).2 =
      [Op.opQuery "SELECT * FROM users WHERE id = ?" [GoValue.vint 1]] ∧
    (Connection.find usersInfo (GoValue.vint 1)
        (fun _ _ => Except.ok none)).2 ≠
      [Op.opQuery "SELECT * FROM \"users\" WHERE \"id\" = $1" [GoValue.vint 1]] := by
  exact ⟨by decide, by decide⟩

/-- C2 (amended): on the users model, `Create` issues
`INSERT INTO users (username) VALUES (?)` with the username as the single
argument and writes the driver-reported `LastInsertId` into the record's
`Id` field, and `Find(record, 1)` issues `SELECT * FROM users WHERE id = ?`
and fails with `ErrNotFound` when the driver reports no matching row.  The
identifiers are unquoted and the placeholders generic because the executor
builds its SQL with the dialect-unaware `QueryBuilder`, whatever driver
the connection was opened with. -/
theorem create_find_users_behaviour (v : GoValue)
    (valuesIter : List (String × GoValue)) (n : Int)
    (hiter : valuesIter.Perm [("username", v)]) :
    Connection.create usersInfo (userRec v) valuesIter
        (fun _ _ => Except.ok (some n)) =
      (.ok [("Id", GoValue.vint n), ("Username", v)],
       [Op.opExec "INSERT INTO users (username) VALUES (?)" [v]]) ∧
    Connection.find usersInfo (GoValue.vint 1) (fun _ _ => Except.ok none) =
      (.error SageError.notFound,
       [Op.opQuery "SELECT * FROM users WHERE id = ?" [GoValue.vint 1]]) := by
  have hiter' : valuesIter = [("username", v)] := List.perm_singleton.mp hiter
  subst hiter'
  exact ⟨rfl, rfl⟩

/-- C2 witness: the amended behaviour at the concrete username `jdoe`,
generated id 1, and an empty result set. -/
theorem create_find_users_behaviour_witness :
    Connection.create usersInfo (userRec (GoValue.vstr "jdoe"))
        [("username", GoValue.vstr "jdoe")] (fun _ _ => Except.ok (some 1)) =
      (.ok [("Id", GoValue.vint 1), ("Username", GoValue.vstr "jdoe")],
       [Op.opExec "INSERT INTO users (username) VALUES (?)" [GoValue.vstr "jdoe"]]) ∧
    Connection.find usersInfo (GoValue.vint 1) (fun _ _ => Except.ok none) =
      (.error SageError.notFound,
       [Op.opQuery "SELECT * FROM users WHERE id = ?" [GoValue.vint 1]]) :=
  create_find_users_behaviour (GoValue.vstr "jdoe")
    [("username", GoValue.vstr "jdoe")] 1 (by decide)

theorem foldl_key_null (r : Rec) :
    ∀ l : List FieldInfo,
      (∀ f ∈ l, f.isKey = true → fieldByName r f.name = GoValue.vnull) →
      List.foldl (fun acc f => if f.isKey then fieldByName r f.name else acc)
        GoValue.vnull l = GoValue.vnull
  | [], _ => rfl
  | f :: t, hkeys => by
    have hf := hkeys f (List.mem_cons_self f t)
    have ht : ∀ g ∈ t, g.isKey = true → fieldByName r g.name = GoValue.vnull :=
      fun g hg => hkeys g (List.mem_cons_of_mem f hg)
    rw [List.foldl_cons]
    by_cases hk : f.isKey = true
    · rw [if_pos hk, hf hk]
      exact foldl_key_null r t ht
    · rw [if_neg hk]
      exact foldl_key_null r t ht

theorem updateIdValue_eq_null (info : ModelInfo) (r : Rec)
    (hkeys : ∀ f ∈ info.fields, f.isKey = true →
      fieldByName r f.name = GoValue.vnull) :
    Connection.updateIdValue info r = GoValue.vnull :=
  foldl_key_null r info.fields hkeys

/-- C3: `Update` on a record whose primary-key field holds the absent (nil)
value fails with `ErrNoID` (the `MissingKey` error) and issues no UPDATE
statement: the nil check happens before the query is built or executed. -/
theorem update_missing_key_returns_noID (info : ModelInfo) (r : Rec)
    (valuesIter : List (String × GoValue))
    (exec : String → List GoValue → Except String Nat)
    (hkeys : ∀ f ∈ info.fields, f.isKey = true →
      fieldByName r f.name = GoValue.vnull) :
    Connection.update info r valuesIter exec = (.error SageError.noID, []) := by
  have h := updateIdValue_eq_null info r hkeys
  simp [Connection.update, h]

/-- C3 witness: on the users model with a nil `Id`, `Update` returns
`ErrNoID` and issues nothing, whatever the driver would answer. -/
theorem update_missing_key_returns_noID_witness :
    Connection.update usersInfo [("Id", GoValue.vnull), ("Username", GoValue.vstr "jdoe")]
        [] (fun _ _ => Except.ok 1) = (.error SageError.noID, []) :=
  update_missing_key_returns_noID usersInfo
    [("Id", GoValue.vnull), ("Username", GoValue.vstr "jdoe")] []
    (fun _ _ => Except.ok 1) (by decide)

/-- C4: an `Update` or `Delete` whose statement executes successfully but
affects zero rows returns `ErrNotFound` instead of succeeding: the driver
answering zero affected rows makes both calls fail. -/
theorem update_delete_zero_rows_not_found (info : ModelInfo) (r : Rec)
    (valuesIter : List (String × GoValue))
    (hu : Connection.updateIdValue info r ≠ GoValue.vnull)
    (hd : Connection.deleteIdValue info r ≠ GoValue.vnull) :
    (Connection.update info r valuesIter (fun _ _ => Except.ok 0)).1 =
      .error SageError.notFound ∧
    (Connection.delete info r (fun _ _ => Except.ok 0)).1 =
      .error SageError.notFound := by
  constructor
  · simp [Connection.update, hu]
  · simp [Connection.delete, hd]

/-- C4 witness: on the users model with `Id = 5`, zero affected rows makes
both `Update` and `Delete` return `ErrNotFound`. -/
theorem update_delete_zero_rows_not_found_witness :
    (Connection.update usersInfo [("Id", GoValue.vint 5), ("Username", GoValue.vstr "jdoe")]
        [("username", GoValue.vstr "jdoe")] (fun _ _ => Except.ok 0)).1 =
      .error SageError.notFound ∧
    (Connection.delete usersInfo [("Id", GoValue.vint 5), ("Username", GoValue.vstr "jdoe")]
        (fun _ _ => Except.ok 0)).1 =
      .error SageError.notFound :=
  update_delete_zero_rows_not_found usersInfo
    [("Id", GoValue.vint 5), ("Username", GoValue.vstr "jdoe")]
    [("username", GoValue.vstr "jdoe")] (by decide) (by decide)

/-- Character-level `strings.Split(s, "_")`. -/
def splitOnChar (c : Char) : List Char → List (List Char)
  | [] => [[]]
  | ch :: rest =>
    let r := splitOnChar c rest
    if ch = c then [] :: r
    else
      match r with
      | [] => [[ch]]
      | w :: ws => (ch :: w) :: ws

/-- `strings.Title` on a single word: capitalize the first character. -/
def capitalizeWord : List Char → List Char
  | [] => []
  | ch :: t => ch.toUpper :: t

/-- `toFieldName` from the relationship engine: converts a snake_case
column name to the CamelCase Go field name (split on `_`, capitalize each
part, join). -/
def toFieldName (columnName : String) : String :=
  String.join ((splitOnChar '_' columnName.data).map
    (fun w => String.mk (capitalizeWord w)))

/-- `strings.EqualFold` (restricted to the case conversion Go performs on
ASCII identifiers). -/
def equalFold (a b : String) : Bool :=
  a.data.map Char.toLower = b.data.map Char.toLower

/-- The four relationship kinds. -/
inductive RelationshipType where
  | hasOne
  | belongsTo
  | hasMany
  | manyToMany
deriving DecidableEq, Repr

/-- A `Relationship`; the Go `Model interface{}` prototype is represented
by the `ModelInfo` that `extractModelInfo(rel.Model)` derives from it. -/
structure Relationship where
  rtype : RelationshipType
  modelInfo : ModelInfo
  foreignKey : String
  referenceKey : String
  joinTable : String
  joinForeignKey : String
  joinRefKey : String
deriving DecidableEq, Repr

/-- A freshly allocated related record (`reflect.New(relType).Elem()`):
every field starts at its zero value (nil interface in this model). -/
def zeroRecord (info : ModelInfo) : Rec :=
  info.fields.map (fun f => (f.name, GoValue.vnull))

/-- The row-to-record column mapping shared by `All` and the preloaders:
for each returned column, the first model field whose db name matches
case-insensitively receives the value; unmatched columns are dropped. -/
def mapRowToRecord (info : ModelInfo) (cols : List String)
    (row : List GoValue) : Rec :=
  (cols.zip row).foldl
    (fun acc p =>
      match info.fields.find? (fun f => equalFold f.dbName p.1) with
      | some f => setField acc f.name p.2
      | none => acc)
    (zeroRecord info)

/-- `Connection.preloadHasMany`: SELECT of the related table keyed by the
parent's primary key; the destination field is always assigned the freshly
built slice (`reflect.MakeSlice(sliceType, 0, 0)` plus one append per
row).  The returned value is the new content of the destination
collection field: `some` of the collected records (`some []` when the
query matched nothing), never the absent/nil slice.  `uery` models
`QueryContext` plus `rows.Columns` plus the scan loop, returning the
column names and the rows. -/
def preloadHasMany (source : Rec) (srcInfo : ModelInfo) (rel : Relationship)
    (fieldSettable : Bool)
    (query : String → List GoValue →
      Except String (List String × List (List GoValue))) :
    Except SageError (Option (List Rec)) × List Op :=
  match lookupField source (toFieldName srcInfo.primaryKey) with
  | none =>
    (.error (.otherError ("primary key field " ++ srcInfo.primaryKey ++
      " not found in source model")), [])
  | some pk =>
    let qb :=
      { newQueryBuilder rel.modelInfo.tableName with
        operation := "SELECT", whereClause := [rel.foreignKey ++ " = ?"],
        whereArgs := [pk] }
    let qa := qb.build []
    match query qa.1 qa.2 with
    | .error e => (.error (.dbError e), [Op.opQuery qa.1 qa.2])
    | .ok colsRows =>
      if fieldSettable = false then
        (.error (.otherError "field is not settable"), [Op.opQuery qa.1 qa.2])
      else
        (.ok (some (colsRows.2.map
            (fun row => mapRowToRecord rel.modelInfo colsRows.1 row))),
         [Op.opQuery qa.1 qa.2])

/-- C7: preloading a HasMany relationship whose query matches zero child
rows succeeds and sets the destination collection field to the empty,
non-absent collection (`some []`, the model of a non-nil empty slice). -/
theorem preload_hasmany_zero_rows_empty (source : Rec) (srcInfo : ModelInfo)
    (rel : Relationship) (pk : GoValue) (cols : List String)
    (query : String → List GoValue →
      Except String (List String × List (List GoValue)))
    (hpk : lookupField source (toFieldName srcInfo.primaryKey) = some pk)
    (hq : ∀ q a, query q a = Except.ok (cols, [])) :
    (preloadHasMany source srcInfo rel true query).1 =
      .ok (some ([] : List Rec)) := by
  simp [preloadHasMany, hpk, hq]

/-- The posts model used in the relationship examples. -/
def postsInfo : ModelInfo :=
  { tableName := "posts", primaryKey := "id",
    fields := [
      { name := "Id", dbName := "id", isKey := true, isAuto := true },
      { name := "UserId", dbName := "user_id", isKey := false, isAuto := false } ] }

/-- A HasMany relationship from users to posts via `user_id`. -/
def userPostsRel : Relationship :=
  { rtype := RelationshipType.hasMany, modelInfo := postsInfo,
    foreignKey := "user_id", referenceKey := "id", joinTable := "",
    joinForeignKey := "", joinRefKey := "" }

/-- C7 witness: a parent with primary key 1 and a HasMany posts
relationship whose query returns no rows gets `some []`. -/
theorem preload_hasmany_zero_rows_empty_witness :
    (preloadHasMany [("Id", GoValue.vint 1)] usersInfo userPostsRel
        true (fun _ _ => Except.ok (["id"], []))).1 =
      .ok (some ([] : List Rec)) :=
  preload_hasmany_zero_rows_empty [("Id", GoValue.vint 1)] usersInfo
    userPostsRel (GoValue.vint 1) ["id"] _ (by decide) (fun _ _ => rfl)

/-- `Connection.Preload` on a (pointer to a) slice whose elements are
by-value structs: each element is copied into a freshly allocated pointer
(`ptr := reflect.New(elemType); ptr.Elem().Set(elem)`), the single-record
`Preload` (`loadOne`) runs on the copy, and the copy is never written back
into the slice; the traversal stops at the first error, leaving the rest
untouched.  The second component is the slice contents after the call. -/
def preloadSliceValues (loadOne : Rec → Except SageError Rec) :
    List Rec → Option SageError × List Rec
  | [] => (none, [])
  | x :: rest =>
    match loadOne x with
    | .error e => (some e, x :: rest)
    | .ok _ =>
      let p := preloadSliceValues loadOne rest
      (p.1, x :: p.2)

/-- C10: preloading a slice of by-value structs leaves every slice element
unchanged, whatever the single-record preload does to its copy and whether
or not it fails. -/
theorem preload_slice_values_frame (loadOne : Rec → Except SageError Rec) :
    ∀ xs : List Rec, (preloadSliceValues loadOne xs).2 = xs
  | [] => rfl
  | x :: rest => by
    unfold preloadSliceValues
    cases h : loadOne x with
    | error e => rfl
    | ok r => simp [preload_slice_values_frame loadOne rest]

/-- `NestedOption` from nested.go. -/
structure NestedOption where
  autoSave : Bool
  autoDelete : Bool
  skipValidation : Bool
  nullifyOnDelete : Bool
  preload : Bool
deriving DecidableEq, Repr

/-- `DefaultNestedOption()`. -/
def defaultNestedOption : NestedOption :=
  { autoSave := true, autoDelete := false, skipValidation := false,
    nullifyOnDelete := false, preload := false }

/-- The executor capabilities nested persistence runs against:
`Connection.Create` (returning the record as left in memory, with any
generated id written back), `Connection.Update`, `ExecContext` (returning
the affected-row count) and `QueryContext` (returning column names and
rows). -/
structure Oracles where
  createRec : Rec → Except SageError Rec
  updateRec : Rec → Except SageError Unit
  execQ : String → List GoValue → Except String Nat
  queryQ : String → List GoValue →
    Except String (List String × List (List GoValue))

/-- `Connection.nestedCreateBelongsTo`: skip a nil child; otherwise create
the child first, read the created child's primary key, copy it into the
source's foreign key field, and re-save (update) the source.  Returns the
source record as left in memory together with the operations issued. -/
def nestedCreateBelongsTo (source : Rec) (rel : Relationship)
    (child : Option Rec) (o : Oracles) : List Op × Except SageError Rec :=
  match child with
  | none => ([], .ok source)
  | some ch =>
    match o.createRec ch with
    | .error e => ([Op.opCreate ch], .error e)
    | .ok ch2 =>
      match lookupField ch2 (toFieldName rel.modelInfo.primaryKey) with
      | none =>
        ([Op.opCreate ch], .error (.otherError ("primary key field " ++
          rel.modelInfo.primaryKey ++ " not found in related model")))
      | some pk =>
        let source2 := setField source (toFieldName rel.foreignKey) pk
        match o.updateRec source2 with
        | .error e => ([Op.opCreate ch, Op.opUpdate source2], .error e)
        | .ok _ => ([Op.opCreate ch, Op.opUpdate source2], .ok source2)

/-- `Connection.nestedCreateHasOne`: skip a nil child; otherwise set the
child's foreign key from the source's primary key and create the child. -/
def nestedCreateHasOne (source : Rec) (srcInfo : ModelInfo)
    (rel : Relationship) (child : Option Rec) (o : Oracles) :
    List Op × Except SageError Unit :=
  match child with
  | none => ([], .ok ())
  | some ch =>
    match lookupField source (toFieldName srcInfo.primaryKey) with
    | none =>
      ([], .error (.otherError ("primary key field " ++ srcInfo.primaryKey ++
        " not found in source model")))
    | some pk =>
      let ch2 := setField ch (toFieldName rel.foreignKey) pk
      match o.createRec ch2 with
      | .error e => ([Op.opCreate ch2], .error e)
      | .ok _ => ([Op.opCreate ch2], .ok ())

/-- The per-child loop of `Connection.nestedCreateHasMany`: nil entries are
skipped, others get the foreign key set and are created; the loop aborts
on the first error. -/
def nestedCreateHasManyLoop (fk : String) (pk : GoValue) (o : Oracles) :
    List (Option Rec) → List Op × Except SageError Unit
  | [] => ([], .ok ())
  | none :: rest => nestedCreateHasManyLoop fk pk o rest
  | some ch :: rest =>
    let ch2 := setField ch fk pk
    match o.createRec ch2 with
    | .error e => ([Op.opCreate ch2], .error e)
    | .ok _ =>
      let p := nestedCreateHasManyLoop fk pk o rest
      (Op.opCreate ch2 :: p.1, p.2)

/-- `Connection.nestedCreateHasMany`: skip a nil or empty collection;
otherwise create every non-nil child with the foreign key set from the
source's primary key. -/
def nestedCreateHasMany (source : Rec) (srcInfo : ModelInfo)
    (rel : Relationship) (children : Option (List (Option Rec)))
    (o : Oracles) : List Op × Except SageError Unit :=
  match children with
  | none => ([], .ok ())
  | some l =>
    if l.isEmpty then ([], .ok ())
    else
      match lookupField source (toFieldName srcInfo.primaryKey) with
      | none =>
        ([], .error (.otherError ("primary key field " ++ srcInfo.primaryKey ++
          " not found in source model")))
      | some pk => nestedCreateHasManyLoop (toFieldName rel.foreignKey) pk o l

/-- `Connection.Associate`: INSERT of one join-table row keyed by the two
primary keys; usage error on any non-ManyToMany relationship. -/
def associate (source : Rec) (srcInfo : ModelInfo) (target : Rec)
    (rel : Relationship) (o : Oracles) : List Op × Except SageError Unit :=
  if rel.rtype ≠ RelationshipType.manyToMany then
    ([], .error (.otherError "associate can only be used with ManyToMany relationships"))
  else
    match lookupField source (toFieldName srcInfo.primaryKey) with
    | none =>
      ([], .error (.otherError ("primary key field " ++ srcInfo.primaryKey ++
        " not found in source model")))
    | some spk =>
      match lookupField target (toFieldName rel.modelInfo.primaryKey) with
      | none =>
        ([], .error (.otherError ("primary key field " ++
          rel.modelInfo.primaryKey ++ " not found in target model")))
      | some tpk =>
        let q := "INSERT INTO " ++ rel.joinTable ++ " (" ++
          rel.joinForeignKey ++ ", " ++ rel.joinRefKey ++ ") VALUES (?, ?)"
        match o.execQ q [spk, tpk] with
        | .error e => ([Op.opExec q [spk, tpk]], .error (.dbError e))
        | .ok _ => ([Op.opExec q [spk, tpk]], .ok ())

/-- The per-child loop of `Connection.nestedCreateManyToMany`: each
non-nil child is created when its primary key is still the zero value and
then associated through the join table. -/
def nestedCreateManyToManyLoop (source : Rec) (srcInfo : ModelInfo)
    (rel : Relationship) (o : Oracles) :
    List (Option Rec) → List Op × Except SageError Unit
  | [] => ([], .ok ())
  | none :: rest => nestedCreateManyToManyLoop source srcInfo rel o rest
  | some ch :: rest =>
    match lookupField ch (toFieldName rel.modelInfo.primaryKey) with
    | none =>
      ([], .error (.otherError ("primary key field " ++
        rel.modelInfo.primaryKey ++ " not found in related model")))
    | some pkRel =>
      if goIsZero pkRel then
        match o.createRec ch with
        | .error e => ([Op.opCreate ch], .error e)
        | .ok ch2 =>
          let pa := associate source srcInfo ch2 rel o
          match pa.2 with
          | .error e => (Op.opCreate ch :: pa.1, .error e)
          | .ok _ =>
            let p := nestedCreateManyToManyLoop source srcInfo rel o rest
            (Op.opCreate ch :: pa.1 ++ p.1, p.2)
      else
        let pa := associate source srcInfo ch rel o
        match pa.2 with
        | .error e => (pa.1, .error e)
        | .ok _ =>
          let p := nestedCreateManyToManyLoop source srcInfo rel o rest
          (pa.1 ++ p.1, p.2)

/-- `Connection.nestedCreateManyToMany`: skip a nil or empty collection;
otherwise run the per-child create/associate loop. -/
def nestedCreateManyToMany (source : Rec) (srcInfo : ModelInfo)
    (rel : Relationship) (children : Option (List (Option Rec)))
    (o : Oracles) : List Op × Except SageError Unit :=
  match children with
  | none => ([], .ok ())
  | some l =>
    if l.isEmpty then ([], .ok ())
    else
      match lookupField source (toFieldName srcInfo.primaryKey) with
      | none =>
        ([], .error (.otherError ("primary key field " ++ srcInfo.primaryKey ++
          " not found in source model")))
      | some _ => nestedCreateManyToManyLoop source srcInfo rel o l

/-- The relationship loop of `Connection.CreateNested`: relationships are
handled in the iteration order of the Go map (the list order here); a
disabled `AutoSave` skips every relationship; the source record evolves
through BelongsTo arms (which write its foreign key and re-save it). -/
def createNestedLoop (srcInfo : ModelInfo) (childOf : String → Option Rec)
    (childrenOf : String → Option (List (Option Rec))) (o : Oracles)
    (opts : NestedOption) :
    List (String × Relationship) → Rec → List Op × Except SageError Rec
  | [], src => ([], .ok src)
  | (field, rel) :: rest, src =>
    if opts.autoSave = false then
      createNestedLoop srcInfo childOf childrenOf o opts rest src
    else
      match rel.rtype with
      | .hasOne =>
        let p := nestedCreateHasOne src srcInfo rel (childOf field) o
        match p.2 with
        | .error e => (p.1, .error e)
        | .ok _ =>
          let q := createNestedLoop srcInfo childOf childrenOf o opts rest src
          (p.1 ++ q.1, q.2)
      | .belongsTo =>
        let p := nestedCreateBelongsTo src rel (childOf field) o
        match p.2 with
        | .error e => (p.1, .error e)
        | .ok src2 =>
          let q := createNestedLoop srcInfo childOf childrenOf o opts rest src2
          (p.1 ++ q.1, q.2)
      | .hasMany =>
        let p := nestedCreateHasMany src srcInfo rel (childrenOf field) o
        match p.2 with
        | .error e => (p.1, .error e)
        | .ok _ =>
          let q := createNestedLoop srcInfo childOf childrenOf o opts rest src
          (p.1 ++ q.1, q.2)
      | .manyToMany =>
        let p := nestedCreateManyToMany src srcInfo rel (childrenOf field) o
        match p.2 with
        | .error e => (p.1, .error e)
        | .ok _ =>
          let q := createNestedLoop srcInfo childOf childrenOf o opts rest src
          (p.1 ++ q.1, q.2)

/-- `Connection.CreateNested`: create the root record first, then process
each relationship.  `childOf` / `childrenOf` give the values of the
relationship fields of the (pointer) model, as `FieldByName` would. -/
def createNested (model : Rec) (srcInfo : ModelInfo)
    (rels : List (String × Relationship)) (childOf : String → Option Rec)
    (childrenOf : String → Option (List (Option Rec))) (o : Oracles)
    (opts : NestedOption) : List Op × Except SageError Rec :=
  match o.createRec model with
  | .error e => ([Op.opCreate model], .error e)
  | .ok model2 =>
    let p := createNestedLoop srcInfo childOf childrenOf o opts rels model2
    (Op.opCreate model :: p.1, p.2)

theorem lookup_any (n : String) :
    ∀ r : Rec, (lookupField r n).isSome = true →
      List.any r (fun p => p.1 = n) = true
  | [], h => by simp [lookupField] at h
  | (a, b) :: t, h => by
    by_cases ha : a = n
    · simp [List.any_cons, ha]
    · have ht : (lookupField t n).isSome = true := by
        simpa [lookupField, ha] using h
      simp [List.any_cons, ha, lookup_any n t ht]

theorem lookup_map_replace (n : String) (v : GoValue) :
    ∀ r : Rec, (lookupField r n).isSome = true →
      lookupField (List.map (fun p => if p.1 = n then (n, v) else p) r) n =
        some v
  | [], h => by simp [lookupField] at h
  | (a, b) :: t, h => by
    by_cases ha : a = n
    · subst ha
      rw [List.map_cons]
      show lookupField ((if a = a then (a, v) else (a, b)) :: _) a = some v
      rw [if_pos rfl]
      simp [lookupField]
    · have ht : (lookupField t n).isSome = true := by
        simpa [lookupField, ha] using h
      have ih := lookup_map_replace n v t ht
      rw [List.map_cons]
      show lookupField ((if a = n then (n, v) else (a, b)) :: _) n = some v
      rw [if_neg ha]
      simpa [lookupField, ha] using ih

theorem lookupField_setField (n : String) (v : GoValue) (r : Rec)
    (h : (lookupField r n).isSome = true) :
    lookupField (setField r n v) n = some v := by
  unfold setField
  rw [if_pos (lookup_any n r h)]
  exact lookup_map_replace n v r h

/-- C8: in `CreateNested`, a BelongsTo relationship with auto-save enabled
and a non-nil child field creates the child record first, then copies the
created child's primary key into the parent's foreign key field, then
re-saves (updates) the parent: the operation trace is root create, child
create, parent update — in that order — the updated parent carries the
child's key in its foreign key field, and the parent returned by the call
is that updated parent. -/
theorem create_nested_belongsTo_child_first (model src2 child ch2 : Rec)
    (pkv : GoValue) (srcInfo : ModelInfo) (rel : Relationship)
    (field : String) (o : Oracles) (opts : NestedOption)
    (hsave : opts.autoSave = true)
    (hkind : rel.rtype = RelationshipType.belongsTo)
    (hroot : o.createRec model = Except.ok src2)
    (hchild : o.createRec child = Except.ok ch2)
    (hpk : lookupField ch2 (toFieldName rel.modelInfo.primaryKey) = some pkv)
    (hfk : (lookupField src2 (toFieldName rel.foreignKey)).isSome = true)
    (hupd : o.updateRec (setField src2 (toFieldName rel.foreignKey) pkv) =
      Except.ok ()) :
    createNested model srcInfo [(field, rel)] (fun _ => some child)
        (fun _ => none) o opts =
      ([Op.opCreate model, Op.opCreate child,
        Op.opUpdate (setField src2 (toFieldName rel.foreignKey) pkv)],
       .ok (setField src2 (toFieldName rel.foreignKey) pkv)) ∧
    lookupField (setField src2 (toFieldName rel.foreignKey) pkv)
        (toFieldName rel.foreignKey) = some pkv := by
  constructor
  · simp [createNested, createNestedLoop, nestedCreateBelongsTo, hroot,
      hsave, hkind, hchild, hpk, hupd]
  · exact lookupField_setField _ _ _ hfk

/-- The profiles model of the BelongsTo example. -/
def profilesInfo : ModelInfo :=
  { tableName := "profiles", primaryKey := "id",
    fields := [
      { name := "Id", dbName := "id", isKey := true, isAuto := true } ] }

/-- A BelongsTo relationship from users to profiles via `profile_id`. -/
def userProfileRel : Relationship :=
  { rtype := RelationshipType.belongsTo, modelInfo := profilesInfo,
    foreignKey := "profile_id", referenceKey := "id", joinTable := "",
    joinForeignKey := "", joinRefKey := "" }

/-- An executor whose creates hand out 9 as the generated id. -/
def exampleOracles : Oracles :=
  { createRec := fun r => Except.ok (setField r "Id" (GoValue.vint 9)),
    updateRec := fun _ => Except.ok (),
    execQ := fun _ _ => Except.ok 1,
    queryQ := fun _ _ => Except.ok ([], []) }

/-- C8 witness: the BelongsTo cascade at a concrete parent and child. -/
theorem create_nested_belongsTo_child_first_witness :
    createNested [("Id", GoValue.vnull), ("ProfileId", GoValue.vnull)]
        usersInfo [("Profile", userProfileRel)]
        (fun _ => some [("Id", GoValue.vnull)]) (fun _ => none)
        exampleOracles defaultNestedOption =
      ([Op.opCreate [("Id", GoValue.vnull), ("ProfileId", GoValue.vnull)],
        Op.opCreate [("Id", GoValue.vnull)],
        Op.opUpdate [("Id", GoValue.vint 9), ("ProfileId", GoValue.vint 9)]],
       .ok [("Id", GoValue.vint 9), ("ProfileId", GoValue.vint 9)]) ∧
    lookupField [("Id", GoValue.vint 9), ("ProfileId", GoValue.vint 9)]
        "ProfileId" = some (GoValue.vint 9) :=
  create_nested_belongsTo_child_first
    [("Id", GoValue.vnull), ("ProfileId", GoValue.vnull)]
    [("Id", GoValue.vint 9), ("ProfileId", GoValue.vnull)]
    [("Id", GoValue.vnull)] [("Id", GoValue.vint 9)] (GoValue.vint 9)
    usersInfo userProfileRel "Profile" exampleOracles defaultNestedOption
    rfl rfl rfl rfl (by decide) (by decide) rfl

/-- `Connection.nestedDeleteHasOne`: a no-op unless `AutoDelete` is set;
then either nullify the children's foreign keys or delete the child rows,
keyed by the source's primary key (`srcPk`, `none` when the key field is
missing). -/
def nestedDeleteHasOne (srcPk : Option GoValue) (rel : Relationship)
    (opts : NestedOption) (o : Oracles) : List Op × Except SageError Unit :=
  if opts.autoDelete = false then ([], .ok ())
  else
    match srcPk with
    | none =>
      ([], .error (.otherError "primary key field not found in source model"))
    | some pk =>
      if opts.nullifyOnDelete then
        let q := "UPDATE " ++ rel.modelInfo.tableName ++ " SET " ++
          rel.foreignKey ++ " = NULL WHERE " ++ rel.foreignKey ++ " = ?"
        match o.execQ q [pk] with
        | .error e => ([Op.opExec q [pk]], .error (.dbError e))
        | .ok _ => ([Op.opExec q [pk]], .ok ())
      else
        let q := "DELETE FROM " ++ rel.modelInfo.tableName ++ " WHERE " ++
          rel.foreignKey ++ " = ?"
        match o.execQ q [pk] with
        | .error e => ([Op.opExec q [pk]], .error (.dbError e))
        | .ok _ => ([Op.opExec q [pk]], .ok ())

/-- `Connection.nestedDeleteHasMany`: same statements as the HasOne case
(the generated UPDATE/DELETE is keyed by foreign key and so already
covers every child row). -/
def nestedDeleteHasMany (srcPk : Option GoValue) (rel : Relationship)
    (opts : NestedOption) (o : Oracles) : List Op × Except SageError Unit :=
  nestedDeleteHasOne srcPk rel opts o

/-- `Connection.nestedDeleteManyToMany`: the join-table rows keyed by the
source's primary key are deleted first, before any option is consulted;
only afterwards, when `AutoDelete` is set, the related-record ids are
queried from the (just emptied) join table and any returned ids are
cascade-deleted. -/
def nestedDeleteManyToMany (srcPk : Option GoValue) (rel : Relationship)
    (opts : NestedOption) (o : Oracles) : List Op × Except SageError Unit :=
  match srcPk with
  | none =>
    ([], .error (.otherError "primary key field not found in source model"))
  | some pk =>
    let q1 := "DELETE FROM " ++ rel.joinTable ++ " WHERE " ++
      rel.joinForeignKey ++ " = ?"
    match o.execQ q1 [pk] with
    | .error e => ([Op.opExec q1 [pk]], .error (.dbError e))
    | .ok _ =>
      if opts.autoDelete = false then ([Op.opExec q1 [pk]], .ok ())
      else
        let q2 := "SELECT " ++ rel.joinRefKey ++ " FROM " ++ rel.joinTable ++
          " WHERE " ++ rel.joinForeignKey ++ " = ?"
        match o.queryQ q2 [pk] with
        | .error e =>
          ([Op.opExec q1 [pk], Op.opQuery q2 [pk]], .error (.dbError e))
        | .ok colsRows =>
          let ids := colsRows.2.filterMap (fun row => row.head?)
          if ids.isEmpty then
            ([Op.opExec q1 [pk], Op.opQuery q2 [pk]], .ok ())
          else
            let phs := String.intercalate ", " (ids.map (fun _ => "?"))
            let q3 := "DELETE FROM " ++ rel.modelInfo.tableName ++
              " WHERE " ++ rel.modelInfo.primaryKey ++ " IN (" ++ phs ++ ")"
            match o.execQ q3 ids with
            | .error e =>
              ([Op.opExec q1 [pk], Op.opQuery q2 [pk], Op.opExec q3 ids],
               .error (.dbError e))
            | .ok _ =>
              ([Op.opExec q1 [pk], Op.opQuery q2 [pk], Op.opExec q3 ids],
               .ok ())

/-- The relationship loop of `Connection.DeleteNested`: HasOne, HasMany
and ManyToMany children are processed; a BelongsTo relationship has no
case in the switch and is skipped. -/
def deleteNestedLoop (srcPk : Option GoValue) (opts : NestedOption)
    (o : Oracles) :
    List (String × Relationship) → List Op × Except SageError Unit
  | [] => ([], .ok ())
  | (_, rel) :: rest =>
    let p :=
      match rel.rtype with
      | .hasOne => nestedDeleteHasOne srcPk rel opts o
      | .hasMany => nestedDeleteHasMany srcPk rel opts o
      | .manyToMany => nestedDeleteManyToMany srcPk rel opts o
      | .belongsTo => ([], .ok ())
    match p.2 with
    | .error e => (p.1, .error e)
    | .ok _ =>
      let q := deleteNestedLoop srcPk opts o rest
      (p.1 ++ q.1, q.2)

/-- `Connection.DeleteNested`: process the child relationships first, then
delete the model itself via `Connection.Delete`. -/
def deleteNested (model : Rec) (srcInfo : ModelInfo)
    (rels : List (String × Relationship)) (opts : NestedOption)
    (o : Oracles) : List Op × Except SageError Unit :=
  let srcPk := lookupField model (toFieldName srcInfo.primaryKey)
  let p := deleteNestedLoop srcPk opts o rels
  match p.2 with
  | .error e => (p.1, .error e)
  | .ok _ =>
    let d := Connection.delete srcInfo model o.execQ
    (p.1 ++ d.2, d.1)

theorem nestedDeleteM2M_trace_cons (pk : GoValue) (rel : Relationship)
    (opts : NestedOption) (o : Oracles) :
    ∃ rest, (nestedDeleteManyToMany (some pk) rel opts o).1 =
      Op.opExec ("DELETE FROM " ++ rel.joinTable ++ " WHERE " ++
        rel.joinForeignKey ++ " = ?") [pk] :: rest := by
  unfold nestedDeleteManyToMany
  dsimp only
  split
  · exact ⟨_, rfl⟩
  · split
    · exact ⟨_, rfl⟩
    · split
      · exact ⟨_, rfl⟩
      · split
        · exact ⟨_, rfl⟩
        · split
          · exact ⟨_, rfl⟩
          · exact ⟨_, rfl⟩

theorem nestedDeleteM2M_trace_take2 (pk : GoValue) (rel : Relationship)
    (opts : NestedOption) (o : Oracles) (n : Nat)
    (had : opts.autoDelete = true)
    (h1 : o.execQ ("DELETE FROM " ++ rel.joinTable ++ " WHERE " ++
      rel.joinForeignKey ++ " = ?") [pk] = Except.ok n) :
    ∃ rest, (nestedDeleteManyToMany (some pk) rel opts o).1 =
      Op.opExec ("DELETE FROM " ++ rel.joinTable ++ " WHERE " ++
        rel.joinForeignKey ++ " = ?") [pk] ::
      Op.opQuery ("SELECT " ++ rel.joinRefKey ++ " FROM " ++ rel.joinTable ++
        " WHERE " ++ rel.joinForeignKey ++ " = ?") [pk] :: rest := by
  unfold nestedDeleteManyToMany
  dsimp only
  rw [h1]
  have had' : ¬ opts.autoDelete = false := by simp [had]
  dsimp only
  rw [if_neg had']
  split
  · exact ⟨_, rfl⟩
  · split
    · exact ⟨_, rfl⟩
    · split
      · exact ⟨_, rfl⟩
      · exact ⟨_, rfl⟩

/-- C9: `DeleteNested` on a ManyToMany relationship deletes all join-table
rows keyed by the source's primary key unconditionally — the first
operation issued is that DELETE, for every `NestedOption`, in particular
with `AutoDelete` disabled or `NullifyOnDelete` enabled — and when
`AutoDelete` is enabled and the join delete succeeded, the query
collecting related-record ids for the cascade runs against the join table
strictly after that delete (it is the second operation issued). -/
theorem delete_nested_m2m_join_rows_first (pk : GoValue) (model : Rec)
    (srcInfo : ModelInfo) (rel : Relationship) (field : String)
    (opts : NestedOption) (o : Oracles)
    (hkind : rel.rtype = RelationshipType.manyToMany)
    (hpk : lookupField model (toFieldName srcInfo.primaryKey) = some pk) :
    (nestedDeleteManyToMany (some pk) rel opts o).1.head? =
      some (Op.opExec ("DELETE FROM " ++ rel.joinTable ++ " WHERE " ++
        rel.joinForeignKey ++ " = ?") [pk]) ∧
    (opts.autoDelete = true →
      ∀ n, o.execQ ("DELETE FROM " ++ rel.joinTable ++ " WHERE " ++
          rel.joinForeignKey ++ " = ?") [pk] = Except.ok n →
        (nestedDeleteManyToMany (some pk) rel opts o).1.take 2 =
          [Op.opExec ("DELETE FROM " ++ rel.joinTable ++ " WHERE " ++
             rel.joinForeignKey ++ " = ?") [pk],
           Op.opQuery ("SELECT " ++ rel.joinRefKey ++ " FROM " ++
             rel.joinTable ++ " WHERE " ++ rel.joinForeignKey ++ " = ?") [pk]]) ∧
    (deleteNested model srcInfo [(field, rel)] opts o).1.head? =
      some (Op.opExec ("DELETE FROM " ++ rel.joinTable ++ " WHERE " ++
        rel.joinForeignKey ++ " = ?") [pk]) := by
  obtain ⟨rest, hr⟩ := nestedDeleteM2M_trace_cons pk rel opts o
  refine ⟨by rw [hr]; rfl, ?_, ?_⟩
  · intro had n h1
    obtain ⟨rest2, hr2⟩ := nestedDeleteM2M_trace_take2 pk rel opts o n had h1
    rw [hr2]
    rfl
  · unfold deleteNested deleteNestedLoop
    rw [hpk, hkind]
    cases hres : (nestedDeleteManyToMany (some pk) rel opts o).2 with
    | error e => simp [hres, hr, deleteNestedLoop]
    | ok u => simp [hres, hr, deleteNestedLoop]

/-- The tags model of the ManyToMany example. -/
def tagsInfo : ModelInfo :=
  { tableName := "tags", primaryKey := "id",
    fields := [
      { name := "Id", dbName := "id", isKey := true, isAuto := true } ] }

/-- A ManyToMany relationship from posts to tags via the `post_tags` join
table. -/
def postTagsRel : Relationship :=
  { rtype := RelationshipType.manyToMany, modelInfo := tagsInfo,
    foreignKey := "", referenceKey := "id", joinTable := "post_tags",
    joinForeignKey := "post_id", joinRefKey := "tag_id" }

/-- Options with both cascade deletion and nullification enabled, to show
the join delete happens even when `NullifyOnDelete` is set. -/
def optsCascadeNullify : NestedOption :=
  { autoSave := true, autoDelete := true, skipValidation := false,
    nullifyOnDelete := true, preload := false }

/-- C9 witness: the join-delete-first behaviour on the posts/tags pair
with `AutoDelete` and `NullifyOnDelete` both enabled. -/
theorem delete_nested_m2m_join_rows_first_witness :
    (nestedDeleteManyToMany (some (GoValue.vint 1)) postTagsRel
        optsCascadeNullify exampleOracles).1.head? =
      some (Op.opExec "DELETE FROM post_tags WHERE post_id = ?"
        [GoValue.vint 1]) ∧
    (optsCascadeNullify.autoDelete = true →
      ∀ n, exampleOracles.execQ "DELETE FROM post_tags WHERE post_id = ?"
          [GoValue.vint 1] = Except.ok n →
        (nestedDeleteManyToMany (some (GoValue.vint 1)) postTagsRel
            optsCascadeNullify exampleOracles).1.take 2 =
          [Op.opExec "DELETE FROM post_tags WHERE post_id = ?" [GoValue.vint 1],
           Op.opQuery "SELECT tag_id FROM post_tags WHERE post_id = ?"
             [GoValue.vint 1]]) ∧
    (deleteNested [("Id", GoValue.vint 1)] postsInfo [("Tags", postTagsRel)]
        optsCascadeNullify exampleOracles).1.head? =
      some (Op.opExec "DELETE FROM post_tags WHERE post_id = ?"
        [GoValue.vint 1]) :=
  delete_nested_m2m_join_rows_first (GoValue.vint 1) [("Id", GoValue.vint 1)]
    postsInfo postTagsRel "Tags" optsCascadeNullify exampleOracles rfl
    (by decide)

/-- A `Migration` row of the ledger table. -/
structure Migration where
  id : Int
  name : String
  description : String
  up : String
  down : String
  createdAt : Int
  appliedAt : Option Int
deriving DecidableEq, Repr

/-- The persisted state the migration manager operates on: whether the
ledger table exists, the ledger rows, and an abstract log of schema
scripts that have been executed and committed. -/
structure MigDB where
  tableExists : Bool
  ledger : List Migration
  schemaOps : List String
deriving DecidableEq, Repr

/-- The `ORDER BY id ASC` ordering of the ledger. -/
def migLe (a b : Migration) : Prop := a.id ≤ b.id

instance : DecidableRel migLe :=
  fun a b => inferInstanceAs (Decidable (a.id ≤ b.id))

instance : IsTotal Migration migLe := ⟨fun a b => le_total a.id b.id⟩

instance : IsTrans Migration migLe := ⟨fun _ _ _ hab hbc => le_trans hab hbc⟩

/-- The `ORDER BY id DESC` ordering of the ledger. -/
def migGe (a b : Migration) : Prop := b.id ≤ a.id

instance : DecidableRel migGe :=
  fun a b => inferInstanceAs (Decidable (b.id ≤ a.id))

instance : IsTotal Migration migGe := ⟨fun a b => le_total b.id a.id⟩

instance : IsTrans Migration migGe := ⟨fun _ _ _ hab hbc => le_trans hbc hab⟩

/-- `GetPendingMigrations`: `WHERE applied_at IS NULL ORDER BY id ASC`
(the sort models the SQL ordering of the result set). -/
def getPendingMigrations (ledger : List Migration) : List Migration :=
  List.insertionSort migLe (ledger.filter (fun m => m.appliedAt.isNone))

/-- `GetAppliedMigrations`: `WHERE applied_at IS NOT NULL ORDER BY id
DESC`. -/
def getAppliedMigrations (ledger : List Migration) : List Migration :=
  List.insertionSort migGe (ledger.filter (fun m => m.appliedAt.isSome))

/-- The transaction-level events a transactional block emits, in order:
`BeginTx`, statement executions, `Commit`, `Rollback`.  (A `Rollback` call
on an already committed transaction is a no-op returning `ErrTxDone` and
is not recorded.) -/
inductive TxEvent where
  | beginTx
  | execTx (q : String)
  | commitTx
  | rollbackTx
deriving DecidableEq, Repr

/-- The outcome of executing one statement: success, a returned error, or
a propagating panic. -/
inductive ExecRes where
  | done
  | failed (e : String)
  | panicked (p : String)
deriving DecidableEq, Repr

/-- How a transactional block terminates: normal completion, an error
return, or a propagating panic. -/
inductive RunRes where
  | finished
  | errored (e : String)
  | panicking (p : String)
deriving DecidableEq, Repr

/-- The SQL text of the mark-as-applied UPDATE inside `MigrateUp`. -/
def markAppliedQuery (tbl : String) : String :=
  "UPDATE " ++ tbl ++ " SET applied_at = $1 WHERE id = $2"

/-- The ledger after the mark-as-applied UPDATE for migration `id`. -/
def markApplied (ledger : List Migration) (id : Int) (now : Int) :
    List Migration :=
  ledger.map (fun m => if m.id = id then { m with appliedAt := some now } else m)

/-- The loop body of `MigrateUp`: execute each pending migration's
upScript, then the mark-as-applied UPDATE, accumulating the transaction's
tentative state; the first failure (or panic) stops the loop, carrying an
error that names the migration. -/
def runUp (tbl : String) (upExec : String → ExecRes)
    (markExec : Int → ExecRes) (now : Int) :
    List Migration → MigDB → List TxEvent × RunRes × MigDB
  | [], db => ([], .finished, db)
  | m :: rest, db =>
    match upExec m.up with
    | .failed e =>
      ([TxEvent.execTx m.up],
       .errored ("failed to apply migration " ++ m.name ++ ": " ++ e), db)
    | .panicked p => ([TxEvent.execTx m.up], .panicking p, db)
    | .done =>
      let db1 := { db with schemaOps := db.schemaOps ++ [m.up] }
      match markExec m.id with
      | .failed e =>
        ([TxEvent.execTx m.up, TxEvent.execTx (markAppliedQuery tbl)],
         .errored ("failed to mark migration " ++ m.name ++
           " as applied: " ++ e), db1)
      | .panicked p =>
        ([TxEvent.execTx m.up, TxEvent.execTx (markAppliedQuery tbl)],
         .panicking p, db1)
      | .done =>
        let db2 := { db1 with ledger := markApplied db1.ledger m.id now }
        let r := runUp tbl upExec markExec now rest db2
        (TxEvent.execTx m.up :: TxEvent.execTx (markAppliedQuery tbl) :: r.1,
         r.2.1, r.2.2)

/-- `MigrationManager.MigrateUp`: ensure the ledger table exists (outside
the transaction), load the pending migrations ordered by id, begin one
transaction, run the loop, and commit — or, on any failure or panic
inside the loop, roll back, so the database keeps its pre-transaction
state (`defer tx.Rollback()` runs on every exit path, and a rollback
after a successful commit is a no-op). -/
def migrateUpTx (tbl : String) (upExec : String → ExecRes)
    (markExec : Int → ExecRes) (now : Int) (db : MigDB) :
    List TxEvent × RunRes × MigDB :=
  let db0 : MigDB := { db with tableExists := true }
  let pending := getPendingMigrations db0.ledger
  let r := runUp tbl upExec markExec now pending db0
  match r.2.1 with
  | .finished =>
    (TxEvent.beginTx :: r.1 ++ [TxEvent.commitTx], .finished, r.2.2)
  | .errored e =>
    (TxEvent.beginTx :: r.1 ++ [TxEvent.rollbackTx], .errored e, db0)
  | .panicking p =>
    (TxEvent.beginTx :: r.1 ++ [TxEvent.rollbackTx], .panicking p, db0)

/-- The SQL text of the mark-as-unapplied UPDATE inside `MigrateDown`. -/
def markUnappliedQuery (tbl : String) : String :=
  "UPDATE " ++ tbl ++ " SET applied_at = NULL WHERE id = $1"

/-- The ledger after the mark-as-unapplied UPDATE for migration `id`. -/
def markUnapplied (ledger : List Migration) (id : Int) : List Migration :=
  ledger.map (fun m => if m.id = id then { m with appliedAt := none } else m)

/-- `MigrationManager.MigrateDown`: load the applied migrations ordered by
id descending, fail with `no migrations to revert` when none, otherwise
run the most recent one's downScript and the mark-as-unapplied UPDATE in
one transaction, committing on success and rolling back on any failure or
panic. -/
def migrateDownTx (tbl : String) (downExec : String → ExecRes)
    (unmarkExec : Int → ExecRes) (db : MigDB) :
    List TxEvent × RunRes × MigDB :=
  match getAppliedMigrations db.ledger with
  | [] => ([], .errored "no migrations to revert", db)
  | last :: _ =>
    match downExec last.down with
    | .failed e =>
      ([TxEvent.beginTx, TxEvent.execTx last.down, TxEvent.rollbackTx],
       .errored ("failed to revert migration " ++ last.name ++ ": " ++ e), db)
    | .panicked p =>
      ([TxEvent.beginTx, TxEvent.execTx last.down, TxEvent.rollbackTx],
       .panicking p, db)
    | .done =>
      match unmarkExec last.id with
      | .failed e =>
        ([TxEvent.beginTx, TxEvent.execTx last.down,
          TxEvent.execTx (markUnappliedQuery tbl), TxEvent.rollbackTx],
         .errored ("failed to mark migration " ++ last.name ++
           " as unapplied: " ++ e), db)
      | .panicked p =>
        ([TxEvent.beginTx, TxEvent.execTx last.down,
          TxEvent.execTx (markUnappliedQuery tbl), TxEvent.rollbackTx],
         .panicking p, db)
      | .done =>
        ([TxEvent.beginTx, TxEvent.execTx last.down,
          TxEvent.execTx (markUnappliedQuery tbl), TxEvent.commitTx],
         .finished,
         { db with
           ledger := markUnapplied db.ledger last.id,
           schemaOps := db.schemaOps ++ [last.down] })

/-- `Connection.WithTransaction`: begin, run the caller-supplied body
(given by the events it executes inside the transaction and how it
terminates), then commit on success; on an error return the deferred
handler rolls back before the error is returned, and on a panic the
`recover` branch rolls back before re-panicking. -/
def withTransaction (bodyEvents : List TxEvent) (bodyRes : RunRes) :
    List TxEvent × RunRes :=
  match bodyRes with
  | .panicking p =>
    (TxEvent.beginTx :: bodyEvents ++ [TxEvent.rollbackTx], .panicking p)
  | .errored e =>
    (TxEvent.beginTx :: bodyEvents ++ [TxEvent.rollbackTx], .errored e)
  | .finished =>
    (TxEvent.beginTx :: bodyEvents ++ [TxEvent.commitTx], .finished)

theorem runUp_error_names (tbl : String) (u : String → ExecRes)
    (k : Int → ExecRes) (now : Int) :
    ∀ (migs : List Migration) (db : MigDB) (e : String),
      (runUp tbl u k now migs db).2.1 = RunRes.errored e →
      ∃ m, m ∈ migs ∧ ∃ s,
        (e = "failed to apply migration " ++ m.name ++ ": " ++ s ∨
         e = "failed to mark migration " ++ m.name ++ " as applied: " ++ s)
  | [], _, e, h => by simp [runUp] at h
  | mg :: rest, db, e, h => by
    unfold runUp at h
    cases hu : u mg.up with
    | failed s =>
      rw [hu] at h
      simp only at h
      rw [RunRes.errored.injEq] at h
      exact ⟨mg, List.mem_cons_self mg rest, s, Or.inl h.symm⟩
    | panicked p =>
      rw [hu] at h
      simp at h
    | done =>
      rw [hu] at h
      cases hk : k mg.id with
      | failed s =>
        rw [hk] at h
        simp only at h
        rw [RunRes.errored.injEq] at h
        exact ⟨mg, List.mem_cons_self mg rest, s, Or.inr h.symm⟩
      | panicked p =>
        rw [hk] at h
        simp at h
      | done =>
        rw [hk] at h
        simp only at h
        obtain ⟨m, hm, hs⟩ := runUp_error_names tbl u k now rest _ e h
        exact ⟨m, List.mem_cons_of_mem mg hm, hs⟩

theorem runUp_finished_trace (tbl : String) (u : String → ExecRes)
    (k : Int → ExecRes) (now : Int) :
    ∀ (migs : List Migration) (db : MigDB),
      (runUp tbl u k now migs db).2.1 = RunRes.finished →
      (runUp tbl u k now migs db).1 =
        migs.flatMap (fun m =>
          [TxEvent.execTx m.up, TxEvent.execTx (markAppliedQuery tbl)])
  | [], _, _ => by simp [runUp]
  | mg :: rest, db, h => by
    unfold runUp at h ⊢
    cases hu : u mg.up with
    | failed s =>
      rw [hu] at h
      simp at h
    | panicked p =>
      rw [hu] at h
      simp at h
    | done =>
      rw [hu] at h
      cases hk : k mg.id with
      | failed s =>
        rw [hk] at h
        simp at h
      | panicked p =>
        rw [hk] at h
        simp at h
      | done =>
        rw [hk] at h
        dsimp only at h ⊢
        have ih := runUp_finished_trace tbl u k now rest _ h
        simp [ih]

/-- C5: `MigrateUp` loads exactly the Pending migrations (those with no
`applied_at`) ordered by id ascending; when any statement of the run
fails, the whole transaction is rolled back so the ledger and the
executed-schema state are exactly what they were before the call (no
migration from the run is retained) and the returned error names the
offending migration (`failed to apply migration <name>` or
`failed to mark migration <name> as applied`); when the run succeeds, the
emitted events are one `BeginTx`, then every pending migration's upScript
followed by its mark-as-applied UPDATE in order, then one `Commit`. -/
theorem migrate_up_order_and_atomicity (tbl : String)
    (upExec : String → ExecRes) (markExec : Int → ExecRes) (now : Int)
    (db : MigDB) :
    List.Sorted migLe (getPendingMigrations db.ledger) ∧
    (getPendingMigrations db.ledger).Perm
      (db.ledger.filter (fun m => m.appliedAt.isNone)) ∧
    (∀ evs e dbOut,
      migrateUpTx tbl upExec markExec now db = (evs, RunRes.errored e, dbOut) →
      dbOut.ledger = db.ledger ∧ dbOut.schemaOps = db.schemaOps ∧
      ∃ m, m ∈ getPendingMigrations db.ledger ∧ ∃ s,
        (e = "failed to apply migration " ++ m.name ++ ": " ++ s ∨
         e = "failed to mark migration " ++ m.name ++ " as applied: " ++ s)) ∧
    (∀ evs dbOut,
      migrateUpTx tbl upExec markExec now db = (evs, RunRes.finished, dbOut) →
      evs = TxEvent.beginTx ::
        ((getPendingMigrations db.ledger).flatMap (fun m =>
          [TxEvent.execTx m.up, TxEvent.execTx (markAppliedQuery tbl)]) ++
         [TxEvent.commitTx])) := by
  refine ⟨List.sorted_insertionSort migLe _, List.perm_insertionSort migLe _,
    ?_, ?_⟩
  · intro evs e dbOut h
    unfold migrateUpTx at h
    simp only at h
    cases hres : (runUp tbl upExec markExec now
        (getPendingMigrations db.ledger)
        { db with tableExists := true }).2.1 with
    | finished => rw [hres] at h; simp at h
    | panicking p => rw [hres] at h; simp at h
    | errored e2 =>
      rw [hres] at h
      simp only [Prod.mk.injEq] at h
      obtain ⟨hevs, he, hdb⟩ := h
      rw [RunRes.errored.injEq] at he
      subst he
      refine ⟨by rw [← hdb], by rw [← hdb], ?_⟩
      exact runUp_error_names tbl upExec markExec now _ _ e2 hres
  · intro evs dbOut h
    unfold migrateUpTx at h
    simp only at h
    cases hres : (runUp tbl upExec markExec now
        (getPendingMigrations db.ledger)
        { db with tableExists := true }).2.1 with
    | errored e2 => rw [hres] at h; simp at h
    | panicking p => rw [hres] at h; simp at h
    | finished =>
      rw [hres] at h
      simp only [Prod.mk.injEq] at h
      obtain ⟨hevs, _, _⟩ := h
      rw [← hevs,
        runUp_finished_trace tbl upExec markExec now _ _ hres]
      simp

/-- An already-applied migration. -/
def mig0 : Migration :=
  { id := 0, name := "init", description := "", up := "CREATE TABLE init",
    down := "DROP TABLE init", createdAt := 0, appliedAt := some 5 }

/-- A pending migration whose up script the example driver rejects. -/
def mig1 : Migration :=
  { id := 1, name := "create_users", description := "",
    up := "CREATE TABLE users", down := "DROP TABLE users", createdAt := 1,
    appliedAt := none }

/-- The example ledger state. -/
def exampleDB : MigDB :=
  { tableExists := true, ledger := [mig1, mig0], schemaOps := [] }

/-- A driver for which every script fails with a syntax error. -/
def failUp : String → ExecRes := fun _ => ExecRes.failed "syntax error"

/-- A driver for which every ledger update succeeds. -/
def okMark : Int → ExecRes := fun _ => ExecRes.done

/-- C5 witness: with one pending migration whose up script fails, the
post-call ledger and schema state equal the pre-call ones and the error
names the pending migration. -/
theorem migrate_up_order_and_atomicity_witness :
    ((migrateUpTx "migrations" failUp okMark 7 exampleDB).2.2).ledger =
      exampleDB.ledger ∧
    ((migrateUpTx "migrations" failUp okMark 7 exampleDB).2.2).schemaOps =
      exampleDB.schemaOps ∧
    ∃ m, m ∈ getPendingMigrations exampleDB.ledger ∧ ∃ s,
      ("failed to apply migration create_users: syntax error" =
        "failed to apply migration " ++ m.name ++ ": " ++ s ∨
       "failed to apply migration create_users: syntax error" =
        "failed to mark migration " ++ m.name ++ " as applied: " ++ s) :=
  (migrate_up_order_and_atomicity "migrations" failUp okMark 7
      exampleDB).2.2.1
    (migrateUpTx "migrations" failUp okMark 7 exampleDB).1
    "failed to apply migration create_users: syntax error"
    (migrateUpTx "migrations" failUp okMark 7 exampleDB).2.2
    (by decide)

theorem runUp_events_exec (tbl : String) (u : String → ExecRes)
    (k : Int → ExecRes) (now : Int) :
    ∀ (migs : List Migration) (db : MigDB),
      ∀ ev ∈ (runUp tbl u k now migs db).1, ∃ q, ev = TxEvent.execTx q
  | [], db, ev, hev => by simp [runUp] at hev
  | mg :: rest, db, ev, hev => by
    unfold runUp at hev
    cases hu : u mg.up with
    | failed s =>
      rw [hu] at hev
      simp at hev
      exact ⟨mg.up, hev⟩
    | panicked p =>
      rw [hu] at hev
      simp at hev
      exact ⟨mg.up, hev⟩
    | done =>
      rw [hu] at hev
      cases hk : k mg.id with
      | failed s =>
        rw [hk] at hev
        simp at hev
        rcases hev with h1 | h2
        · exact ⟨mg.up, h1⟩
        · exact ⟨markAppliedQuery tbl, h2⟩
      | panicked p =>
        rw [hk] at hev
        simp at hev
        rcases hev with h1 | h2
        · exact ⟨mg.up, h1⟩
        · exact ⟨markAppliedQuery tbl, h2⟩
      | done =>
        rw [hk] at hev
        dsimp only at hev
        rcases List.mem_cons.mp hev with h1 | h2
        · exact ⟨mg.up, h1⟩
        · rcases List.mem_cons.mp h2 with h3 | h4
          · exact ⟨markAppliedQuery tbl, h3⟩
          · exact runUp_events_exec tbl u k now rest _ ev h4

theorem count_beginTx_zero (l : List TxEvent)
    (h : ∀ ev ∈ l, ∃ q, ev = TxEvent.execTx q) :
    l.count TxEvent.beginTx = 0 := by
  rw [List.count_eq_zero]
  intro hmem
  obtain ⟨q, hq⟩ := h _ hmem
  simp at hq

theorem migrateUpTx_trace_shape (tbl : String) (u : String → ExecRes)
    (k : Int → ExecRes) (now : Int) (db : MigDB) :
    ∃ inner last, (migrateUpTx tbl u k now db).1 =
        TxEvent.beginTx :: inner ++ [last] ∧
      (∀ ev ∈ inner, ∃ q, ev = TxEvent.execTx q) ∧
      ((migrateUpTx tbl u k now db).2.1 = RunRes.finished →
        last = TxEvent.commitTx) ∧
      (∀ e, (migrateUpTx tbl u k now db).2.1 = RunRes.errored e →
        last = TxEvent.rollbackTx) ∧
      (∀ p, (migrateUpTx tbl u k now db).2.1 = RunRes.panicking p →
        last = TxEvent.rollbackTx) := by
  unfold migrateUpTx
  dsimp only
  cases hres : (runUp tbl u k now (getPendingMigrations db.ledger)
      { db with tableExists := true }).2.1 with
  | finished =>
    refine ⟨_, TxEvent.commitTx, rfl, ?_, fun _ => rfl, ?_, ?_⟩
    · exact runUp_events_exec tbl u k now _ _
    · intro e he
      simp at he
    · intro p hp
      simp at hp
  | errored e =>
    refine ⟨_, TxEvent.rollbackTx, rfl, ?_, ?_, fun _ _ => rfl, ?_⟩
    · exact runUp_events_exec tbl u k now _ _
    · intro hf
      simp at hf
    · intro p hp
      simp at hp
  | panicking p =>
    refine ⟨_, TxEvent.rollbackTx, rfl, ?_, ?_, ?_, fun _ _ => rfl⟩
    · exact runUp_events_exec tbl u k now _ _
    · intro hf
      simp at hf
    · intro e he
      simp at he

/-- C6: every transactional block runs inside exactly one transaction and
rolls back on every exit path of its body before the outcome is re-raised.
For `WithTransaction`: the body's outcome (normal, error, or panic) is
returned or re-raised unchanged; a body that begins no transaction of its
own yields a trace with exactly one `BeginTx`; on an error return or a
panic the trace is begin, body, rollback — the rollback precedes the
re-raise — and on success it is begin, body, commit.  For `MigrateUp` and
`MigrateDown` (when some migration is applied, so a transaction is begun
at all): the trace contains exactly one `BeginTx` and ends in `Rollback`
whenever the run errors or panics, and in `Commit` exactly when it
finishes. -/
theorem transactional_blocks_single_tx_rollback
    (bodyEvents : List TxEvent) (bodyRes : RunRes) (tbl : String)
    (upExec downExec : String → ExecRes)
    (markExec unmarkExec : Int → ExecRes) (now : Int) (db : MigDB) :
    ((withTransaction bodyEvents bodyRes).2 = bodyRes ∧
     (bodyEvents.count TxEvent.beginTx = 0 →
       (withTransaction bodyEvents bodyRes).1.count TxEvent.beginTx = 1) ∧
     (∀ e, bodyRes = RunRes.errored e →
       (withTransaction bodyEvents bodyRes).1 =
         TxEvent.beginTx :: bodyEvents ++ [TxEvent.rollbackTx]) ∧
     (∀ p, bodyRes = RunRes.panicking p →
       (withTransaction bodyEvents bodyRes).1 =
         TxEvent.beginTx :: bodyEvents ++ [TxEvent.rollbackTx]) ∧
     (bodyRes = RunRes.finished →
       (withTransaction bodyEvents bodyRes).1 =
         TxEvent.beginTx :: bodyEvents ++ [TxEvent.commitTx])) ∧
    ((migrateUpTx tbl upExec markExec now db).1.count TxEvent.beginTx = 1 ∧
     (∀ e, (migrateUpTx tbl upExec markExec now db).2.1 = RunRes.errored e →
       (migrateUpTx tbl upExec markExec now db).1.getLast? =
         some TxEvent.rollbackTx) ∧
     (∀ p, (migrateUpTx tbl upExec markExec now db).2.1 = RunRes.panicking p →
       (migrateUpTx tbl upExec markExec now db).1.getLast? =
         some TxEvent.rollbackTx) ∧
     ((migrateUpTx tbl upExec markExec now db).2.1 = RunRes.finished →
       (migrateUpTx tbl upExec markExec now db).1.getLast? =
         some TxEvent.commitTx)) ∧
    (getAppliedMigrations db.ledger ≠ [] →
      (migrateDownTx tbl downExec unmarkExec db).1.count TxEvent.beginTx = 1 ∧
      (∀ e, (migrateDownTx tbl downExec unmarkExec db).2.1 =
          RunRes.errored e →
        (migrateDownTx tbl downExec unmarkExec db).1.getLast? =
          some TxEvent.rollbackTx) ∧
      (∀ p, (migrateDownTx tbl downExec unmarkExec db).2.1 =
          RunRes.panicking p →
        (migrateDownTx tbl downExec unmarkExec db).1.getLast? =
          some TxEvent.rollbackTx) ∧
      ((migrateDownTx tbl downExec unmarkExec db).2.1 = RunRes.finished →
        (migrateDownTx tbl downExec unmarkExec db).1.getLast? =
          some TxEvent.commitTx)) := by
  refine ⟨?_, ?_, ?_⟩
  · cases bodyRes with
    | finished =>
      refine ⟨rfl, ?_, ?_, ?_, fun _ => rfl⟩
      · intro h0
        simp [withTransaction, List.count_cons, List.count_append, h0]
      · intro e he
        simp at he
      · intro p hp
        simp at hp
    | errored e =>
      refine ⟨rfl, ?_, ?_, ?_, ?_⟩
      · intro h0
        simp [withTransaction, List.count_cons, List.count_append, h0]
      · intro e2 he
        rw [RunRes.errored.injEq] at he
        subst he
        rfl
      · intro p hp
        simp at hp
      · intro hf
        simp at hf
    | panicking p =>
      refine ⟨rfl, ?_, ?_, ?_, ?_⟩
      · intro h0
        simp [withTransaction, List.count_cons, List.count_append, h0]
      · intro e he
        simp at he
      · intro p2 hp
        rw [RunRes.panicking.injEq] at hp
        subst hp
        rfl
      · intro hf
        simp at hf
  · obtain ⟨inner, last, htr, hexec, hfin, herr, hpan⟩ :=
      migrateUpTx_trace_shape tbl upExec markExec now db
    have hinner : inner.count TxEvent.beginTx = 0 :=
      count_beginTx_zero inner hexec
    have hlast : ∀ x : TxEvent,
        (TxEvent.beginTx :: inner ++ [x]).getLast? = some x := by
      intro x
      rw [List.getLast?_concat]
    refine ⟨?_, ?_, ?_, ?_⟩
    · cases hres : (migrateUpTx tbl upExec markExec now db).2.1 with
      | finished =>
        rw [htr, hfin hres]
        simp [List.count_cons, List.count_append, hinner]
      | errored e =>
        rw [htr, herr e hres]
        simp [List.count_cons, List.count_append, hinner]
      | panicking p =>
        rw [htr, hpan p hres]
        simp [List.count_cons, List.count_append, hinner]
    · intro e hres
      rw [htr, herr e hres]
      exact hlast _
    · intro p hres
      rw [htr, hpan p hres]
      exact hlast _
    · intro hres
      rw [htr, hfin hres]
      exact hlast _
  · intro hne
    unfold migrateDownTx
    cases happl : getAppliedMigrations db.ledger with
    | nil => exact absurd happl hne
    | cons last rest =>
      dsimp only
      cases hd : downExec last.down with
      | failed s =>
        exact ⟨rfl, fun e _ => rfl, fun p hp => by simp at hp,
          fun hf => by simp at hf⟩
      | panicked p =>
        exact ⟨rfl, fun e he => by simp at he, fun p2 _ => rfl,
          fun hf => by simp at hf⟩
      | done =>
        dsimp only
        cases hk : unmarkExec last.id with
        | failed s =>
          exact ⟨rfl, fun e _ => rfl, fun p hp => by simp at hp,
            fun hf => by simp at hf⟩
        | panicked p2 =>
          exact ⟨rfl, fun e he => by simp at he, fun p3 _ => rfl,
            fun hf => by simp at hf⟩
        | done =>
          exact ⟨rfl, fun e he => by simp at he, fun p2 hp => by simp at hp,
            fun _ => rfl⟩

/-- C6 witness: a body that errors after one INSERT gets begin, INSERT,
rollback; and the concrete `MigrateUp` / `MigrateDown` runs on the example
ledger each begin exactly one transaction. -/
theorem transactional_blocks_single_tx_rollback_witness :
    (withTransaction [TxEvent.execTx "INSERT INTO t VALUES (1)"]
        (RunRes.errored "boom")).1 =
      [TxEvent.beginTx, TxEvent.execTx "INSERT INTO t VALUES (1)",
       TxEvent.rollbackTx] ∧
    (migrateUpTx "migrations" failUp okMark 7 exampleDB).1.count
      TxEvent.beginTx = 1 ∧
    (migrateDownTx "migrations" failUp okMark exampleDB).1.count
      TxEvent.beginTx = 1 := by
  have h := transactional_blocks_single_tx_rollback
    [TxEvent.execTx "INSERT INTO t VALUES (1)"] (RunRes.errored "boom")
    "migrations" failUp failUp okMark okMark 7 exampleDB
  exact ⟨h.1.2.2.1 "boom" rfl, h.2.1.1, (h.2.2 (by decide)).1⟩

end Sage
